import Mathlib

/-!
Verification of the differentiable fixed-point solver in
`nux/util/fixed_point.py`.

The solver operates on "pytrees" (nested containers of numeric arrays).
We embed the numeric scalars as rationals, a pytree as an inductive tree of
lists of rationals, and keep the solver generic over the state type `X`
together with a flattening function `X → List ℚ` modelling
`jax.flatten_util.ravel_pytree`.  `jax.lax.while_loop` is embedded as a
fuel-based recursion: the source's loop counter `i` starts at `0` and the
condition fails as soon as `i ≥ max_iters`, so the loop body runs at most
`max_iters` times and `fuel = max_iters - i` is a faithful reformulation;
the returned natural number is the number of body executions, which equals
the final value of `i`.
-/

-- `atol = 1e-5`, set in `_fixed_point`.
def atol : ℚ := 1 / 100000

-- `jnp.allclose` is called with `atol=atol` only, so the relative
-- tolerance keeps its default value `rtol = 1e-5`.
def jnp_rtol_default : ℚ := 1 / 100000

-- `jnp.allclose(a, b, rtol, atol)` : every element satisfies
-- `|a_i - b_i| ≤ atol + rtol * |b_i|`.  The two arrays come from
-- structure-preserving iterates, hence have equal lengths; we record the
-- length condition explicitly.
def jnp_allclose (rtol tol : ℚ) (a b : List ℚ) : Prop :=
  a.length = b.length ∧ ∀ p ∈ a.zip b, |p.1 - p.2| ≤ tol + rtol * |p.2|

instance (rtol tol : ℚ) (a b : List ℚ) : Decidable (jnp_allclose rtol tol a b) := by
  unfold jnp_allclose; exact inferInstance

-- The convergence test of `cond_fun`: ravel both iterates and compare with
-- `jnp.allclose(flat_x_prev, flat_x, atol=atol)`.
def cond_close {X : Type} (flatten : X → List ℚ) (x_prev x : X) : Prop :=
  jnp_allclose jnp_rtol_default atol (flatten x_prev) (flatten x)

instance {X : Type} (flatten : X → List ℚ) : DecidableRel (cond_close flatten) :=
  fun _ _ => by unfold cond_close; exact inferInstance

-- `jax.lax.while_loop(cond_fun, body_fun, (x_prev, x, i))` where
-- `cond_fun` is `¬(i ≥ max_iters ∨ close x_prev x)` and `body_fun` maps
-- `(_, x, i)` to `(x, f x, i + 1)`.  `fuel` stands for `max_iters - i`;
-- the second component of the result counts the body executions performed,
-- i.e. the final loop counter.
def while_loop {X : Type} (close : X → X → Prop) [DecidableRel close]
    (f : X → X) : ℕ → X → X → X × ℕ
  | 0, _, x => (x, 0)
  | fuel + 1, x_prev, x =>
    if close x_prev x then (x, 0)
    else
      ((while_loop close f fuel x (f x)).1, (while_loop close f fuel x (f x)).2 + 1)

-- `_fixed_point(f, x_init, max_iters)`: run the while loop from the state
-- `(x_init, f(x_init), 0)` and return the current iterate and the loop
-- counter.
def _fixed_point {X : Type} (flatten : X → List ℚ) (f : X → X)
    (x_init : X) (max_iters : ℕ) : X × ℕ :=
  while_loop (cond_close flatten) f max_iters x_init (f x_init)

-- Flattening of a bare scalar state.
def flattenQ (q : ℚ) : List ℚ := [q]

-- Model of a jax pytree: a leaf is a flat numeric array, and containers
-- nest.  `ravel_pytree` concatenates the leaves left to right.
inductive PyTree : Type where
  | leaf : List ℚ → PyTree
  | node : PyTree → PyTree → PyTree

def ravel_pytree : PyTree → List ℚ
  | .leaf xs => xs
  | .node l r => ravel_pytree l ++ ravel_pytree r

-- `fixed_point(f, u, x_init, max_iters, *nondiff_args)`: close over `u`
-- and the auxiliary arguments, delegate to `_fixed_point`, and return only
-- the iterate (the count `N` is discarded).
def fixed_point {U X E : Type} (flatten : X → List ℚ) (f : U → X → List E → X)
    (u : U) (x_init : X) (max_iters : ℕ) (nondiff_args : List E) : X :=
  (_fixed_point flatten (fun x => f u x nondiff_args) x_init max_iters).1

-- `fixed_point_fwd`: forward rule; the residuals are
-- `(u, x, max_iters, *nondiff_args)` with `x` the converged iterate.
def fixed_point_fwd {U X E : Type} (flatten : X → List ℚ) (f : U → X → List E → X)
    (u : U) (x_init : X) (max_iters : ℕ) (nondiff_args : List E) :
    X × (U × X × ℕ × List E) :=
  (fixed_point flatten f u x_init max_iters nondiff_args,
    (u, fixed_point flatten f u x_init max_iters nondiff_args, max_iters, nondiff_args))

/-- `fixed_point_rev(f, ctx, dLdx)`.  `jax.vjp` is embedded by passing the
vector-Jacobian-product operators explicitly: `vjpx u x args` is the
pullback of `x ↦ f u x args` at the point `x`, and `vjpu u x args` the
pullback of `u ↦ f u x args` at `u`.  `add` is the elementwise addition
used by `jax.tree_multimap(lambda x, y: x + y, ...)`.  The gradient slots
for `x_init` and `max_iters` are `None`, and the trailing tuple
`(None,) * len(nondiff_args)` is one `None` per auxiliary argument. -/
def fixed_point_rev {U X E : Type} (flatten : X → List ℚ) (add : X → X → X)
    (vjpx : U → X → List E → X → X) (vjpu : U → X → List E → X → U)
    (ctx : U × X × ℕ × List E) (dLdx : X) :
    U × Option X × Option ℕ × List (Option Unit) :=
  let u := ctx.1
  let x := ctx.2.1
  let max_iters := ctx.2.2.1
  let nondiff_args := ctx.2.2.2
  let vjp_x := vjpx u x nondiff_args
  let rev_iter := fun zeta => add dLdx (vjp_x zeta)
  let zeta := (_fixed_point flatten rev_iter dLdx max_iters).1
  let dLdu := vjpu u x nondiff_args zeta
  (dLdu, none, none, List.replicate nondiff_args.length none)

/-- The backward rule as the specification words it: solve, with the same
fixed-point iterator as the forward pass, the adjoint equation
`ζ = dLdx + vjp_x ζ` starting from `dLdx` with the same `max_iters`
budget, then return `dLdu = vjp_u ζ`.  Here `vjp_x` and `vjp_u` are the
pullbacks of `f` at the converged point. -/
def adjoint_rule_spec {U X : Type} (flatten : X → List ℚ) (add : X → X → X)
    (vjp_x : X → X) (vjp_u : X → U) (dLdx : X) (max_iters : ℕ) : U :=
  vjp_u (_fixed_point flatten (fun zeta => add dLdx (vjp_x zeta)) dLdx max_iters).1

-- The comparison claimed by the specification: a single fixed absolute
-- tolerance on the elementwise difference, with no relative term.
def atol_only_allclose (tol : ℚ) (a b : List ℚ) : Prop :=
  a.length = b.length ∧ ∀ p ∈ a.zip b, |p.1 - p.2| ≤ tol

instance (tol : ℚ) (a b : List ℚ) : Decidable (atol_only_allclose tol a b) := by
  unfold atol_only_allclose; exact inferInstance

-- A map that moves `0` by much less than the tolerance but then jumps:
-- used to separate "the last two iterates are close" from "the returned
-- iterate is an approximate fixed point".
def cf_spike (x : ℚ) : ℚ := if x ≤ 0 then 1 / 1000000 else 100

-- Adjoint iteration map for the scalar linear update `f(u, x) = a*x + u`
-- with upstream gradient `dLdx = 1`: `rev_iter ζ = dLdx + vjp_x ζ = 1 + a*ζ`.
def rev_lin (a z : ℚ) : ℚ := 1 + a * z

/-! ### Basic lemmas about the loop -/

lemma zip_self_mem {α : Type} : ∀ (l : List α) (p : α × α), p ∈ l.zip l → p.1 = p.2 := by
  intro l
  induction l with
  | nil => intro p hp; simp [List.zip] at hp
  | cons a t ih =>
    intro p hp
    simp only [List.zip_cons_cons, List.mem_cons] at hp
    rcases hp with hp | hp
    · rw [hp]
    · exact ih p hp

lemma jnp_allclose_self (rtol tol : ℚ) (hr : 0 ≤ rtol) (ht : 0 ≤ tol)
    (l : List ℚ) : jnp_allclose rtol tol l l := by
  refine ⟨rfl, ?_⟩
  intro p hp
  have h1 : p.1 = p.2 := zip_self_mem l p hp
  rw [h1, sub_self, abs_zero]
  positivity

lemma cond_close_self {X : Type} (flatten : X → List ℚ) (x : X) :
    cond_close flatten x x :=
  jnp_allclose_self _ _ (by norm_num [jnp_rtol_default]) (by norm_num [atol]) _

lemma cond_close_q (a b : ℚ) :
    cond_close flattenQ a b ↔ |a - b| ≤ atol + jnp_rtol_default * |b| := by
  unfold cond_close jnp_allclose flattenQ
  simp [List.zip]

lemma cond_close_iff_q (a b : ℚ) (hb : 0 ≤ b) :
    cond_close flattenQ a b ↔
      (-(atol + jnp_rtol_default * b) ≤ a - b ∧ a - b ≤ atol + jnp_rtol_default * b) := by
  rw [cond_close_q, abs_of_nonneg hb, abs_le]

lemma while_loop_stop {X : Type} (close : X → X → Prop) [DecidableRel close]
    (f : X → X) (fuel : ℕ) (x_prev x : X) (h0 : fuel ≠ 0) (hc : close x_prev x) :
    while_loop close f fuel x_prev x = (x, 0) := by
  cases fuel with
  | zero => exact absurd rfl h0
  | succ n => simp [while_loop, if_pos hc]

lemma while_loop_step {X : Type} (close : X → X → Prop) [DecidableRel close]
    (f : X → X) (fuel : ℕ) (x_prev x : X) (h0 : fuel ≠ 0) (hc : ¬ close x_prev x) :
    while_loop close f fuel x_prev x =
      ((while_loop close f (fuel - 1) x (f x)).1,
        (while_loop close f (fuel - 1) x (f x)).2 + 1) := by
  cases fuel with
  | zero => exact absurd rfl h0
  | succ n => simp [while_loop, if_neg hc]

/-- Evaluation helper: one loop step, with the next state and the result of
the remaining loop supplied as equations. -/
lemma fp_eval_step {X : Type} (flatten : X → List ℚ) (f : X → X)
    (x_prev x y : X) (fuel : ℕ) (res : X × ℕ) (h0 : fuel ≠ 0)
    (hc : ¬ cond_close flatten x_prev x) (hy : f x = y)
    (hrec : while_loop (cond_close flatten) f (fuel - 1) x y = res) :
    while_loop (cond_close flatten) f fuel x_prev x = (res.1, res.2 + 1) := by
  rw [while_loop_step (cond_close flatten) f fuel x_prev x h0 hc, hy, hrec]

/-- Evaluation helper: the loop exits because the tolerance is met. -/
lemma fp_eval_stop {X : Type} (flatten : X → List ℚ) (f : X → X)
    (x_prev x : X) (fuel : ℕ) (h0 : fuel ≠ 0)
    (hc : cond_close flatten x_prev x) :
    while_loop (cond_close flatten) f fuel x_prev x = (x, 0) :=
  while_loop_stop (cond_close flatten) f fuel x_prev x h0 hc

/-! ### Master characterization of the loop -/

lemma while_loop_iters_le {X : Type} (close : X → X → Prop) [DecidableRel close]
    (f : X → X) : ∀ (fuel : ℕ) (x_prev x : X),
    (while_loop close f fuel x_prev x).2 ≤ fuel := by
  intro fuel
  induction fuel with
  | zero => intro x_prev x; simp [while_loop]
  | succ n ih =>
    intro x_prev x
    by_cases hc : close x_prev x
    · simp [while_loop, if_pos hc]
    · simp only [while_loop, if_neg hc]
      exact Nat.succ_le_succ (ih x (f x))

lemma while_loop_fst {X : Type} (close : X → X → Prop) [DecidableRel close]
    (f : X → X) : ∀ (fuel : ℕ) (x_prev x : X),
    (while_loop close f fuel x_prev x).1 =
      f^[(while_loop close f fuel x_prev x).2] x := by
  intro fuel
  induction fuel with
  | zero => intro x_prev x; simp [while_loop]
  | succ n ih =>
    intro x_prev x
    by_cases hc : close x_prev x
    · simp [while_loop, if_pos hc]
    · simp only [while_loop, if_neg hc]
      rw [ih x (f x), Function.iterate_succ_apply]

lemma while_loop_exit {X : Type} (close : X → X → Prop) [DecidableRel close]
    (f : X → X) : ∀ (fuel : ℕ) (x_prev x : X),
    (while_loop close f fuel x_prev x).2 = fuel ∨
      ((while_loop close f fuel x_prev x).2 = 0 ∧ close x_prev x) ∨
      (∃ m, (while_loop close f fuel x_prev x).2 = m + 1 ∧
        close (f^[m] x) (f^[m + 1] x)) := by
  intro fuel
  induction fuel with
  | zero => intro x_prev x; left; simp [while_loop]
  | succ n ih =>
    intro x_prev x
    by_cases hc : close x_prev x
    · right; left; simp [while_loop, if_pos hc, hc]
    · simp only [while_loop, if_neg hc]
      rcases ih x (f x) with h | ⟨h, hcl⟩ | ⟨m, h, hcl⟩
      · left; simp [h]
      · right; right
        refine ⟨0, by simp [h], ?_⟩
        simpa using hcl
      · right; right
        refine ⟨m + 1, by simp [h], ?_⟩
        rw [Function.iterate_succ_apply f m x, Function.iterate_succ_apply f (m + 1) x]
        exact hcl

/-- Everything the loop guarantees at once: the count is at most
`max_iters`, the returned iterate is the `(N+1)`-fold application of `f` to
`x_init`, and the loop stopped either by exhausting the budget or because
the last two iterates `f^[N] x_init` and `f^[N+1] x_init` passed the
tolerance test. -/
lemma _fixed_point_run_spec {X : Type} (flatten : X → List ℚ) (f : X → X)
    (x_init : X) (max_iters : ℕ) :
    (_fixed_point flatten f x_init max_iters).2 ≤ max_iters ∧
    (_fixed_point flatten f x_init max_iters).1 =
      f^[(_fixed_point flatten f x_init max_iters).2 + 1] x_init ∧
    ((_fixed_point flatten f x_init max_iters).2 = max_iters ∨
      cond_close flatten (f^[(_fixed_point flatten f x_init max_iters).2] x_init)
        (f^[(_fixed_point flatten f x_init max_iters).2 + 1] x_init)) := by
  unfold _fixed_point
  refine ⟨while_loop_iters_le _ f max_iters x_init (f x_init), ?_, ?_⟩
  · rw [while_loop_fst _ f max_iters x_init (f x_init),
      Function.iterate_succ_apply]
  · rcases while_loop_exit (cond_close flatten) f max_iters x_init (f x_init)
      with h | ⟨h, hcl⟩ | ⟨m, h, hcl⟩
    · exact Or.inl h
    · right
      rw [h]
      simpa using hcl
    · right
      rw [h, Function.iterate_succ_apply f m x_init,
        Function.iterate_succ_apply f (m + 1) x_init]
      exact hcl

/-- If the tolerance test never succeeds along the orbit (witnessed by an
invariant `P`), the loop spends its whole budget. -/
lemma while_loop_run_full {X : Type} (close : X → X → Prop) [DecidableRel close]
    (f : X → X) (P : X → Prop) (hf : ∀ y, P y → P (f y))
    (hc : ∀ y, P y → ¬ close y (f y)) :
    ∀ (fuel : ℕ) (x0 : X), P x0 →
      while_loop close f fuel x0 (f x0) = (f^[fuel] (f x0), fuel) := by
  intro fuel
  induction fuel with
  | zero => intro x0 _; simp [while_loop]
  | succ n ih =>
    intro x0 h0
    simp only [while_loop, if_neg (hc x0 h0)]
    rw [ih (f x0) (hf x0 h0)]
    rw [← Function.iterate_succ_apply]

/-! ### Claim theorems -/

/-- Claim C3: with `max_iters = 0` the solver returns exactly `f x_init`
(the body runs once before the condition is checked) and the reported
iteration count is `0`. -/
theorem fixed_point_zero_budget {X : Type} (flatten : X → List ℚ) (f : X → X)
    (x_init : X) : _fixed_point flatten f x_init 0 = (f x_init, 0) := rfl

/-- Claim C9: the iteration count `N` satisfies `N ≤ max_iters` and the
returned value is the `(N+1)`-fold application of `f` to `x_init`; in
particular `f` is applied at least once. -/
theorem fixed_point_iter_count_invariant {X : Type} (flatten : X → List ℚ)
    (f : X → X) (x_init : X) (max_iters : ℕ) :
    (_fixed_point flatten f x_init max_iters).2 ≤ max_iters ∧
    (_fixed_point flatten f x_init max_iters).1 =
      f^[(_fixed_point flatten f x_init max_iters).2 + 1] x_init :=
  ⟨(_fixed_point_run_spec flatten f x_init max_iters).1,
   (_fixed_point_run_spec flatten f x_init max_iters).2.1⟩

/-- Claim C10: the public entry point `fixed_point` returns exactly the
first component of the pair produced by `_fixed_point` — the iteration
count is discarded, so a caller sees neither an error nor a count. -/
theorem fixed_point_discards_iteration_count {U X E : Type}
    (flatten : X → List ℚ) (f : U → X → List E → X) (u : U) (x_init : X)
    (max_iters : ℕ) (args : List E) :
    fixed_point flatten f u x_init max_iters args =
      (_fixed_point flatten (fun x => f u x args) x_init max_iters).1 := rfl

/-- Claim C5: the backward rule returns `None` gradients for `x_init`,
for `max_iters`, and for each auxiliary argument; only `u` gets a real
gradient value. -/
theorem fixed_point_rev_null_grads {U X E : Type} (flatten : X → List ℚ)
    (add : X → X → X) (vjpx : U → X → List E → X → X)
    (vjpu : U → X → List E → X → U) (u : U) (x : X) (max_iters : ℕ)
    (args : List E) (dLdx : X) :
    (fixed_point_rev flatten add vjpx vjpu (u, x, max_iters, args) dLdx).2.1 = none ∧
    (fixed_point_rev flatten add vjpx vjpu (u, x, max_iters, args) dLdx).2.2.1 = none ∧
    (fixed_point_rev flatten add vjpx vjpu (u, x, max_iters, args) dLdx).2.2.2 =
      List.replicate args.length (none : Option Unit) :=
  ⟨rfl, rfl, rfl⟩

/-- Claim C2: on the residuals saved by the forward pass, the backward
rule computes exactly the specification's adjoint recipe: solve
`ζ = dLdx + vjp_x ζ` with the same fixed-point iterator, starting from
`dLdx` with the same `max_iters` budget, with `vjp_x` and `vjp_u` taken at
the converged point, and return `vjp_u ζ`. -/
theorem fixed_point_rev_matches_adjoint_rule {U X E : Type}
    (flatten : X → List ℚ) (f : U → X → List E → X) (add : X → X → X)
    (vjpx : U → X → List E → X → X) (vjpu : U → X → List E → X → U)
    (u : U) (x_init : X) (max_iters : ℕ) (args : List E) (dLdx : X) :
    (fixed_point_rev flatten add vjpx vjpu
        ((fixed_point_fwd flatten f u x_init max_iters args).2) dLdx).1 =
      adjoint_rule_spec flatten add
        (vjpx u (fixed_point flatten f u x_init max_iters args) args)
        (vjpu u (fixed_point flatten f u x_init max_iters args) args)
        dLdx max_iters := rfl

/-- Claim C6: if `x_init` is an exact fixed point of `f`, the solver
returns `x_init` with iteration count `0`, for every budget. -/
theorem fixed_point_exact_fixed_point_zero_iters {X : Type}
    (flatten : X → List ℚ) (f : X → X) (x_init : X) (max_iters : ℕ)
    (h : f x_init = x_init) :
    _fixed_point flatten f x_init max_iters = (x_init, 0) := by
  unfold _fixed_point
  rw [h]
  cases max_iters with
  | zero => rfl
  | succ n =>
    exact while_loop_stop _ f (n + 1) x_init x_init (Nat.succ_ne_zero n)
      (cond_close_self flatten x_init)

/-- Witness for claim C6 at the identity map on `5` with budget `3`. -/
theorem fixed_point_exact_fixed_point_zero_iters_wit :
    _fixed_point flattenQ (fun q : ℚ => q) 5 3 = (5, 0) :=
  fixed_point_exact_fixed_point_zero_iters flattenQ (fun q : ℚ => q) 5 3 rfl

/-- Claim C1 (counterexample): at `f = cf_spike`, `x_init = 0`,
`max_iters = 5` the loop exits with `N = 0 ≠ 5`, yet the returned iterate
`x* = 1/1000000` is nowhere near `f x* = 100`: the claimed disjunction
"`x* ≈ f x*` within tolerance or the budget is exhausted" is false. -/
theorem fixed_point_residual_claim_false :
    ¬ (cond_close flattenQ (_fixed_point flattenQ cf_spike 0 5).1
          (cf_spike (_fixed_point flattenQ cf_spike 0 5).1) ∨
        (_fixed_point flattenQ cf_spike 0 5).2 = 5) := by
  have h : _fixed_point flattenQ cf_spike 0 5 = (1 / 1000000, 0) := by
    unfold _fixed_point
    rw [show cf_spike 0 = 1 / 1000000 from by norm_num [cf_spike]]
    exact fp_eval_stop flattenQ cf_spike 0 (1 / 1000000) 5 (by norm_num)
      (by
        rw [cond_close_iff_q 0 (1 / 1000000) (by norm_num)]
        constructor <;> norm_num [atol, jnp_rtol_default])
  rw [h]
  simp only [not_or]
  constructor
  · rw [show cf_spike (1 / 1000000) = 100 from by norm_num [cf_spike]]
    rw [cond_close_iff_q (1 / 1000000) 100 (by norm_num)]
    norm_num [atol, jnp_rtol_default]
  · norm_num

/-- Claim C1 (amended): the returned iterate is the last computed one,
`f^[N+1] x_init`, and either the budget was exhausted (`N = max_iters`) or
the last two iterates `f^[N] x_init` and `f^[N+1] x_init` pass the
tolerance test; no error path exists. -/
theorem fixed_point_converged_or_budget {X : Type} (flatten : X → List ℚ)
    (f : X → X) (x_init : X) (max_iters : ℕ) :
    (_fixed_point flatten f x_init max_iters).1 =
      f^[(_fixed_point flatten f x_init max_iters).2 + 1] x_init ∧
    ((_fixed_point flatten f x_init max_iters).2 = max_iters ∨
      cond_close flatten
        (f^[(_fixed_point flatten f x_init max_iters).2] x_init)
        ((_fixed_point flatten f x_init max_iters).1)) := by
  refine ⟨(_fixed_point_run_spec flatten f x_init max_iters).2.1, ?_⟩
  rcases (_fixed_point_run_spec flatten f x_init max_iters).2.2 with h | h
  · exact Or.inl h
  · right
    rw [(_fixed_point_run_spec flatten f x_init max_iters).2.1]
    exact h

/-- Claim C7 (counterexample): `-1` is a nonzero initial guess, yet for
`f x = 2 x + 1` the solver stops immediately (`-1` is an exact, repelling,
fixed point), so the count is `0`, not `max_iters = 3`. -/
theorem expanding_map_claim_false_at_neg_one :
    ((-1 : ℚ) ≠ 0) ∧
      (_fixed_point flattenQ (fun x : ℚ => 2 * x + 1) (-1) 3).2 ≠ 3 := by
  constructor
  · norm_num
  · have h : _fixed_point flattenQ (fun x : ℚ => 2 * x + 1) (-1) 3 = (-1, 0) := by
      unfold _fixed_point
      rw [show (fun x : ℚ => 2 * x + 1) (-1) = -1 from by norm_num]
      exact fp_eval_stop flattenQ _ (-1) (-1) 3 (by norm_num)
        (cond_close_self flattenQ (-1))
    rw [h]
    norm_num

/-- Claim C7 (amended): for `f x = 2 x + 1` started from any nonnegative
initial guess (any start bounded away from the repelling fixed point `-1`),
the loop runs for exactly `max_iters` iterations and returns the finite
value `f^[max_iters + 1] x_init`. -/
theorem expanding_map_runs_full_budget (x0 : ℚ) (h : 0 ≤ x0) (max_iters : ℕ) :
    _fixed_point flattenQ (fun x : ℚ => 2 * x + 1) x0 max_iters =
      ((fun x : ℚ => 2 * x + 1)^[max_iters + 1] x0, max_iters) := by
  unfold _fixed_point
  rw [while_loop_run_full (cond_close flattenQ) (fun x : ℚ => 2 * x + 1)
    (fun y => 0 ≤ y) (fun y hy => by dsimp only; linarith)
    (fun y hy hcc => by
      rw [cond_close_iff_q y (2 * y + 1) (by linarith)] at hcc
      rcases hcc with ⟨hA, _⟩
      simp only [atol, jnp_rtol_default] at hA
      linarith)
    max_iters x0 h]
  rw [← Function.iterate_succ_apply]

/-- Witness for claim C7 (amended) at `x_init = 1`, `max_iters = 2`. -/
theorem expanding_map_runs_full_budget_wit :
    _fixed_point flattenQ (fun x : ℚ => 2 * x + 1) 1 2 =
      ((fun x : ℚ => 2 * x + 1)^[3] 1, 2) :=
  expanding_map_runs_full_budget 1 (by norm_num) 2

/-- Claim C4 (counterexample): the convergence test accepts the pair
`(1000000, 1000009)` although the elementwise difference is `9`, vastly
above the absolute tolerance `1e-5`, because the default relative
tolerance `rtol = 1e-5` also enters `jnp.allclose`; consequently the
solver declares `f x = x + 9` converged at `x_init = 1000000` after zero
iterations. -/
theorem cond_fun_not_atol_only :
    cond_close flattenQ 1000000 1000009 ∧
    ¬ atol_only_allclose atol (flattenQ 1000000) (flattenQ 1000009) ∧
    _fixed_point flattenQ (fun x : ℚ => x + 9) 1000000 5 = (1000009, 0) := by
  have hclose : cond_close flattenQ 1000000 1000009 := by
    rw [cond_close_iff_q 1000000 1000009 (by norm_num)]
    constructor <;> norm_num [atol, jnp_rtol_default]
  refine ⟨hclose, ?_, ?_⟩
  · intro hcl
    rcases hcl with ⟨_, hall⟩
    have h9 := hall (1000000, 1000009) (by simp [flattenQ, List.zip])
    rw [show (1000000 : ℚ) - 1000009 = -9 from by norm_num, abs_neg,
      abs_of_nonneg (by norm_num : (0 : ℚ) ≤ 9)] at h9
    norm_num [atol] at h9
  · unfold _fixed_point
    rw [show (fun x : ℚ => x + 9) 1000000 = 1000009 from by norm_num]
    exact fp_eval_stop flattenQ _ 1000000 1000009 5 (by norm_num) hclose

/-- Claim C4 (amended): the convergence decision is exactly
`jnp.allclose` on the raveled iterates with `atol = 1e-5` and the default
`rtol = 1e-5`; it depends only on the flattened numeric sequences, so the
container structure is irrelevant. -/
theorem cond_fun_allclose_flatten_invariant (t1 t2 t1' t2' : PyTree)
    (h1 : ravel_pytree t1 = ravel_pytree t1')
    (h2 : ravel_pytree t2 = ravel_pytree t2') :
    (cond_close ravel_pytree t1 t2 ↔ cond_close ravel_pytree t1' t2') ∧
    (cond_close ravel_pytree t1 t2 ↔
      jnp_allclose jnp_rtol_default atol (ravel_pytree t1) (ravel_pytree t2)) := by
  unfold cond_close
  rw [h1, h2]
  exact ⟨Iff.rfl, Iff.rfl⟩

/-- Witness for claim C4 (amended): a nested two-leaf tree against a flat
one-leaf tree carrying the same numbers. -/
theorem cond_fun_allclose_flatten_invariant_wit :
    (cond_close ravel_pytree (.node (.leaf [1]) (.leaf [2, 3]))
        (.node (.leaf [4, 5]) (.leaf [6])) ↔
      cond_close ravel_pytree (.leaf [1, 2, 3]) (.leaf [4, 5, 6])) ∧
    (cond_close ravel_pytree (.node (.leaf [1]) (.leaf [2, 3]))
        (.node (.leaf [4, 5]) (.leaf [6])) ↔
      jnp_allclose jnp_rtol_default atol
        (ravel_pytree (.node (.leaf [1]) (.leaf [2, 3])))
        (ravel_pytree (.node (.leaf [4, 5]) (.leaf [6])))) :=
  cond_fun_allclose_flatten_invariant _ _ _ _ rfl rfl

/-! ### Adjoint gradient for the scalar linear update -/

lemma rev_lin_eval_pos :
    _fixed_point flattenQ (rev_lin (1 / 100)) 1 100 = (1010101 / 1000000, 2) := by
  unfold _fixed_point
  have s3 : while_loop (cond_close flattenQ) (rev_lin (1 / 100)) 98
      (10101 / 10000) (1010101 / 1000000) = (1010101 / 1000000, 0) :=
    fp_eval_stop flattenQ _ _ _ 98 (by norm_num)
      (by
        rw [cond_close_iff_q _ _ (by norm_num)]
        constructor <;> norm_num [atol, jnp_rtol_default])
  have s2 : while_loop (cond_close flattenQ) (rev_lin (1 / 100)) 99
      (101 / 100) (10101 / 10000) = (1010101 / 1000000, 1) := by
    have h := fp_eval_step flattenQ (rev_lin (1 / 100)) (101 / 100)
      (10101 / 10000) (1010101 / 1000000) 99 (1010101 / 1000000, 0)
      (by norm_num)
      (by
        rw [cond_close_iff_q _ _ (by norm_num)]
        norm_num [atol, jnp_rtol_default])
      (by norm_num [rev_lin]) s3
    simpa using h
  have s1 : while_loop (cond_close flattenQ) (rev_lin (1 / 100)) 100
      1 (101 / 100) = (1010101 / 1000000, 2) := by
    have h := fp_eval_step flattenQ (rev_lin (1 / 100)) 1 (101 / 100)
      (10101 / 10000) 100 (1010101 / 1000000, 1)
      (by norm_num)
      (by
        rw [cond_close_iff_q _ _ (by norm_num)]
        norm_num [atol, jnp_rtol_default])
      (by norm_num [rev_lin]) s2
    simpa using h
  rw [show rev_lin (1 / 100) 1 = 101 / 100 from by norm_num [rev_lin]]
  exact s1

lemma rev_lin_eval_neg :
    _fixed_point flattenQ (rev_lin (-(1 / 100))) 1 100 = (990099 / 1000000, 2) := by
  unfold _fixed_point
  have s3 : while_loop (cond_close flattenQ) (rev_lin (-(1 / 100))) 98
      (9901 / 10000) (990099 / 1000000) = (990099 / 1000000, 0) :=
    fp_eval_stop flattenQ _ _ _ 98 (by norm_num)
      (by
        rw [cond_close_iff_q _ _ (by norm_num)]
        constructor <;> norm_num [atol, jnp_rtol_default])
  have s2 : while_loop (cond_close flattenQ) (rev_lin (-(1 / 100))) 99
      (99 / 100) (9901 / 10000) = (990099 / 1000000, 1) := by
    have h := fp_eval_step flattenQ (rev_lin (-(1 / 100))) (99 / 100)
      (9901 / 10000) (990099 / 1000000) 99 (990099 / 1000000, 0)
      (by norm_num)
      (by
        rw [cond_close_iff_q _ _ (by norm_num)]
        norm_num [atol, jnp_rtol_default])
      (by norm_num [rev_lin]) s3
    simpa using h
  have s1 : while_loop (cond_close flattenQ) (rev_lin (-(1 / 100))) 100
      1 (99 / 100) = (990099 / 1000000, 2) := by
    have h := fp_eval_step flattenQ (rev_lin (-(1 / 100))) 1 (99 / 100)
      (9901 / 10000) 100 (990099 / 1000000, 1)
      (by norm_num)
      (by
        rw [cond_close_iff_q _ _ (by norm_num)]
        norm_num [atol, jnp_rtol_default])
      (by norm_num [rev_lin]) s2
    simpa using h
  rw [show rev_lin (-(1 / 100)) 1 = 99 / 100 from by norm_num [rev_lin]]
  exact s1

/-- Claim C8: for the scalar linear update `f(u, x) = a*x + u` with
`a = 1/100` and `a = -1/100`, upstream gradient `dLdx = 1` and budget
`100`, the gradient produced by the backward rule (run on the residuals of
the forward pass) is within `1e-4` of the analytic derivative
`1 / (1 - a)` of the fixed point `x*(u) = u / (1 - a)`. -/
theorem adjoint_gradient_linear_accuracy :
    |(fixed_point_rev flattenQ (fun p q : ℚ => p + q)
        (fun _ _ _ z => (1 / 100 : ℚ) * z) (fun _ _ _ z => z)
        ((fixed_point_fwd flattenQ (fun u x _ => (1 / 100 : ℚ) * x + u)
            1 0 100 ([] : List Unit)).2) 1).1 - 1 / (1 - 1 / 100)| ≤ 1 / 10000 ∧
    |(fixed_point_rev flattenQ (fun p q : ℚ => p + q)
        (fun _ _ _ z => (-(1 / 100) : ℚ) * z) (fun _ _ _ z => z)
        ((fixed_point_fwd flattenQ (fun u x _ => (-(1 / 100) : ℚ) * x + u)
            1 0 100 ([] : List Unit)).2) 1).1 - 1 / (1 - -(1 / 100))| ≤ 1 / 10000 := by
  constructor
  · have h1 : (fixed_point_rev flattenQ (fun p q : ℚ => p + q)
        (fun _ _ _ z => (1 / 100 : ℚ) * z) (fun _ _ _ z => z)
        ((fixed_point_fwd flattenQ (fun u x _ => (1 / 100 : ℚ) * x + u)
            1 0 100 ([] : List Unit)).2) 1).1 =
          (_fixed_point flattenQ (rev_lin (1 / 100)) 1 100).1 := rfl
    rw [h1, rev_lin_eval_pos, abs_le]
    constructor <;> norm_num
  · have h1 : (fixed_point_rev flattenQ (fun p q : ℚ => p + q)
        (fun _ _ _ z => (-(1 / 100) : ℚ) * z) (fun _ _ _ z => z)
        ((fixed_point_fwd flattenQ (fun u x _ => (-(1 / 100) : ℚ) * x + u)
            1 0 100 ([] : List Unit)).2) 1).1 =
          (_fixed_point flattenQ (rev_lin (-(1 / 100))) 1 100).1 := rfl
    rw [h1, rev_lin_eval_neg, abs_le]
    constructor <;> norm_num
